import Mathlib

/-!
Verification of the intent-routing / dual-retrieval API backend
(`app/src/rate_limit.py`, `app/src/router.py`, `app/src/utils.py`,
`app/src/vectorstore.py`, `app/src/text2SQL.py`).

The Python code is shallowly embedded: every external call (OpenAI
embedding, LangChain LLM chains, Pinecone index, SQL engine, bcrypt,
JWT) is modelled as an explicit outcome parameter (`Except` for calls
that may raise), and the module-level mutable state (rate-limit map,
chat cache, user file) is threaded explicitly.  Timestamps are `Int`
(only order matters to the code).
-/

namespace ZusApi

/-! ## Rate limiter (`app/src/rate_limit.py`)

`apply_rate_limit` keys its behaviour on the shared anonymous constant
`"global_unauthenticated_user"`, prunes the per-identity timestamp
list, rejects when the remaining count reaches the limit, and records
`now` otherwise. -/

def anonymousId : String := "global_unauthenticated_user"

/-- The four rate-limit constants read from `config.json`
(`auth_rate_limit`, `auth_time_window_seconds`, `global_rate_limit`,
`global_time_window_seconds`). -/
structure RLConfig where
  authRateLimit : Nat
  authTimeWindow : Int
  globalRateLimit : Nat
  globalTimeWindow : Int

/-- The defaults hard-coded in `rate_limit.py`. -/
def defaultRLConfig : RLConfig :=
  { authRateLimit := 5, authTimeWindow := 60
    globalRateLimit := 3, globalTimeWindow := 60 }

/-- `rate_limit = GLOBAL_RATE_LIMIT` for the anonymous identity,
`AUTH_RATE_LIMIT` otherwise. -/
def limitFor (cfg : RLConfig) (userId : String) : Nat :=
  if userId = anonymousId then cfg.globalRateLimit else cfg.authRateLimit

/-- `time_window` selection, mirroring `limitFor`. -/
def windowFor (cfg : RLConfig) (userId : String) : Int :=
  if userId = anonymousId then cfg.globalTimeWindow else cfg.authTimeWindow

/-- `[t for t in user_requests[user_id] if t > current_time - time_window]`. -/
def pruneRequests (window now : Int) (ts : List Int) : List Int :=
  ts.filter (fun t => decide (now - window < t))

/-- One call of `apply_rate_limit`: returns whether the request is
admitted together with the updated `user_requests` map. -/
def applyRateLimit (cfg : RLConfig) (st : String → List Int)
    (userId : String) (now : Int) : Bool × (String → List Int) :=
  let pruned := pruneRequests (windowFor cfg userId) now (st userId)
  if limitFor cfg userId ≤ pruned.length then
    (false, Function.update st userId pruned)
  else
    (true, Function.update st userId (pruned ++ [now]))

/-- Run a sequence of rate-limit checks (identity, time) against the
shared map, returning the admitted events in order. -/
def runRateLimiter (cfg : RLConfig) :
    List (String × Int) → (String → List Int) → List (String × Int)
  | [], _ => []
  | (uid, now) :: rest, st =>
    let step := applyRateLimit cfg st uid now
    if step.1 then (uid, now) :: runRateLimiter cfg rest step.2
    else runRateLimiter cfg rest step.2

/-- The multiset of event times belonging to one identity. -/
def eventTimes (events : List (String × Int)) (userId : String) : Multiset Int :=
  (((events.filter (fun e => decide (e.1 = userId))).map Prod.snd : List Int) : Multiset Int)

/-- How many events of `userId` fall in the half-open window `(t, t + w]`. -/
def windowCount (events : List (String × Int)) (userId : String) (t w : Int) : Nat :=
  Multiset.card ((eventTimes events userId).filter (fun a => t < a ∧ a ≤ t + w))

/-- Invariant tying the in-memory map to the admission history: per
identity the stored list is a sub-multiset of the admitted times, and
every admitted time still inside the window ending at `T` is stored. -/
def RLInv (cfg : RLConfig) (T : Int) (st : String → List Int)
    (hist : List (String × Int)) : Prop :=
  ∀ u : String,
    ((st u : List Int) : Multiset Int) ≤ eventTimes hist u ∧
    (eventTimes hist u).filter (fun a => T - windowFor cfg u < a) ≤
      ((st u : List Int) : Multiset Int)

theorem applyRateLimit_reject {cfg : RLConfig} {st : String → List Int}
    {userId : String} {now : Int}
    (h : limitFor cfg userId ≤ (pruneRequests (windowFor cfg userId) now (st userId)).length) :
    applyRateLimit cfg st userId now =
      (false, Function.update st userId (pruneRequests (windowFor cfg userId) now (st userId))) := by
  simp [applyRateLimit, h]

theorem applyRateLimit_allow {cfg : RLConfig} {st : String → List Int}
    {userId : String} {now : Int}
    (h : ¬ limitFor cfg userId ≤ (pruneRequests (windowFor cfg userId) now (st userId)).length) :
    applyRateLimit cfg st userId now =
      (true, Function.update st userId
        (pruneRequests (windowFor cfg userId) now (st userId) ++ [now])) := by
  simp [applyRateLimit, h]

theorem pruneRequests_coe (window now : Int) (ts : List Int) :
    ((pruneRequests window now ts : List Int) : Multiset Int) =
      Multiset.filter (fun a => now - window < a) ((ts : List Int) : Multiset Int) := by
  simp [pruneRequests, Multiset.filter_coe]

theorem eventTimes_append (events₁ events₂ : List (String × Int)) (u : String) :
    eventTimes (events₁ ++ events₂) u = eventTimes events₁ u + eventTimes events₂ u := by
  simp [eventTimes, List.filter_append]

theorem eventTimes_single_self (uid : String) (now : Int) :
    eventTimes [(uid, now)] uid = {now} := by
  simp [eventTimes]

theorem eventTimes_single_other {uid u : String} (h : u ≠ uid) (now : Int) :
    eventTimes [(uid, now)] u = 0 := by
  simp [eventTimes, Ne.symm h]

theorem eventTimes_nil (u : String) : eventTimes [] u = 0 := rfl

theorem windowCount_nil (u : String) (t w : Int) : windowCount [] u t w = 0 := rfl

theorem filter_window_mono {W T now : Int} (hTnow : T ≤ now) (s : Multiset Int) :
    s.filter (fun a => now - W < a) ≤ s.filter (fun a => T - W < a) := by
  apply Multiset.monotone_filter_right
  intro a ha
  linarith

theorem filter_window_trans {W T now : Int} (hTnow : T ≤ now) {s u : Multiset Int}
    (h : s.filter (fun a => T - W < a) ≤ u) :
    s.filter (fun a => now - W < a) ≤ u.filter (fun a => now - W < a) := by
  have h3 : s.filter (fun a => now - W < a) =
      (s.filter (fun a => T - W < a)).filter (fun a => now - W < a) := by
    rw [Multiset.filter_filter]
    apply Multiset.filter_congr
    intro a _
    exact ⟨fun hh => ⟨hh, by linarith⟩, fun hh => hh.1⟩
  rw [h3]
  exact Multiset.filter_le_filter _ h

/-- The admitted times of one identity inside the window ending at
`now` are all still in the pruned stored list. -/
theorem histWindow_le_pruned {cfg : RLConfig} {T now t : Int} {st : String → List Int}
    {hist : List (String × Int)} {uid : String}
    (hinv : RLInv cfg T st hist) (hTnow : T ≤ now)
    (hnow : now ≤ t + windowFor cfg uid) :
    windowCount hist uid t (windowFor cfg uid) ≤
      (pruneRequests (windowFor cfg uid) now (st uid)).length := by
  have h1 : (eventTimes hist uid).filter (fun a => t < a ∧ a ≤ t + windowFor cfg uid) ≤
      (eventTimes hist uid).filter (fun a => now - windowFor cfg uid < a) := by
    apply Multiset.monotone_filter_right
    intro a ha
    have hle : now - windowFor cfg uid ≤ t := by linarith
    exact lt_of_le_of_lt hle ha.1
  have h2 : (eventTimes hist uid).filter (fun a => now - windowFor cfg uid < a) ≤
      ((pruneRequests (windowFor cfg uid) now (st uid) : List Int) : Multiset Int) := by
    rw [pruneRequests_coe]
    exact filter_window_trans hTnow (hinv uid).2
  have hc := Multiset.card_le_card (le_trans h1 h2)
  simpa [windowCount, Multiset.coe_card] using hc

theorem RLInv_reject {cfg : RLConfig} {T now : Int} {st : String → List Int}
    {hist : List (String × Int)} {uid : String}
    (hinv : RLInv cfg T st hist) (hTnow : T ≤ now) :
    RLInv cfg now
      (Function.update st uid (pruneRequests (windowFor cfg uid) now (st uid))) hist := by
  intro u
  by_cases hu : u = uid
  · subst hu
    rw [Function.update_same]
    constructor
    · refine le_trans ?_ (hinv u).1
      rw [pruneRequests_coe]
      exact Multiset.filter_le _ _
    · rw [pruneRequests_coe]
      exact filter_window_trans hTnow (hinv u).2
  · rw [Function.update_noteq hu]
    exact ⟨(hinv u).1, le_trans (filter_window_mono hTnow _) (hinv u).2⟩

theorem RLInv_allow {cfg : RLConfig} {T now : Int} {st : String → List Int}
    {hist : List (String × Int)} {uid : String}
    (hinv : RLInv cfg T st hist) (hTnow : T ≤ now) :
    RLInv cfg now
      (Function.update st uid (pruneRequests (windowFor cfg uid) now (st uid) ++ [now]))
      (hist ++ [(uid, now)]) := by
  intro u
  by_cases hu : u = uid
  · subst hu
    rw [Function.update_same, eventTimes_append, eventTimes_single_self]
    have hcoe : ((pruneRequests (windowFor cfg u) now (st u) ++ [now] : List Int) :
        Multiset Int) =
        ((pruneRequests (windowFor cfg u) now (st u) : List Int) : Multiset Int) +
          ({now} : Multiset Int) := by
      rw [← Multiset.coe_singleton, Multiset.coe_add]
    rw [hcoe]
    constructor
    · apply add_le_add_right
      refine le_trans ?_ (hinv u).1
      rw [pruneRequests_coe]
      exact Multiset.filter_le _ _
    · rw [Multiset.filter_add]
      apply add_le_add
      · rw [pruneRequests_coe]
        exact filter_window_trans hTnow (hinv u).2
      · exact Multiset.filter_le _ _
  · rw [Function.update_noteq hu, eventTimes_append, eventTimes_single_other hu, add_zero]
    exact ⟨(hinv u).1, le_trans (filter_window_mono hTnow _) (hinv u).2⟩

theorem windowCount_append_single (hist : List (String × Int)) (uid u : String)
    (now t w : Int) :
    windowCount (hist ++ [(uid, now)]) u t w =
      windowCount hist u t w + (if u = uid ∧ t < now ∧ now ≤ t + w then 1 else 0) := by
  unfold windowCount
  rw [eventTimes_append]
  by_cases hu : u = uid
  · subst hu
    rw [eventTimes_single_self, Multiset.filter_add, Multiset.card_add]
    by_cases hnow : t < now ∧ now ≤ t + w
    · simp [Multiset.filter_singleton, hnow]
    · simp [Multiset.filter_singleton, hnow]
  · rw [eventTimes_single_other hu, add_zero]
    simp [hu]

theorem runRateLimiter_cons_reject {cfg : RLConfig} {st : String → List Int}
    {uid : String} {now : Int} {rest : List (String × Int)}
    (h : limitFor cfg uid ≤ (pruneRequests (windowFor cfg uid) now (st uid)).length) :
    runRateLimiter cfg ((uid, now) :: rest) st =
      runRateLimiter cfg rest
        (Function.update st uid (pruneRequests (windowFor cfg uid) now (st uid))) := by
  show (let step := applyRateLimit cfg st uid now
    if step.1 then (uid, now) :: runRateLimiter cfg rest step.2
    else runRateLimiter cfg rest step.2) = _
  rw [applyRateLimit_reject h]
  simp

theorem runRateLimiter_cons_allow {cfg : RLConfig} {st : String → List Int}
    {uid : String} {now : Int} {rest : List (String × Int)}
    (h : ¬ limitFor cfg uid ≤ (pruneRequests (windowFor cfg uid) now (st uid)).length) :
    runRateLimiter cfg ((uid, now) :: rest) st =
      (uid, now) :: runRateLimiter cfg rest
        (Function.update st uid (pruneRequests (windowFor cfg uid) now (st uid) ++ [now])) := by
  show (let step := applyRateLimit cfg st uid now
    if step.1 then (uid, now) :: runRateLimiter cfg rest step.2
    else runRateLimiter cfg rest step.2) = _
  rw [applyRateLimit_allow h]
  simp

/-- Core induction: processing a time-sorted trace from a state related
to the history by `RLInv` never pushes any identity's window count past
`max (history count) limit`. -/
theorem runRateLimiter_window_bound (cfg : RLConfig) (tr : List (String × Int)) :
    ∀ (st : String → List Int) (hist : List (String × Int)) (T : Int),
      List.Chain (· ≤ ·) T (tr.map Prod.snd) →
      RLInv cfg T st hist →
      ∀ (u : String) (t : Int),
        windowCount (hist ++ runRateLimiter cfg tr st) u t (windowFor cfg u) ≤
          max (windowCount hist u t (windowFor cfg u)) (limitFor cfg u) := by
  induction tr with
  | nil =>
    intro st hist T _ _ u t
    simp only [runRateLimiter, List.append_nil]
    exact le_max_left _ _
  | cons ev rest ih =>
    obtain ⟨uid, now⟩ := ev
    intro st hist T hchain hinv u t
    rw [List.map_cons, List.chain_cons] at hchain
    obtain ⟨hTnow0, hchain2⟩ := hchain
    have hTnow : T ≤ now := hTnow0
    by_cases hadm : limitFor cfg uid ≤ (pruneRequests (windowFor cfg uid) now (st uid)).length
    · rw [runRateLimiter_cons_reject hadm]
      exact ih _ hist now hchain2 (RLInv_reject hinv hTnow) u t
    · rw [runRateLimiter_cons_allow hadm]
      have hassoc : hist ++ ((uid, now) :: runRateLimiter cfg rest
          (Function.update st uid (pruneRequests (windowFor cfg uid) now (st uid) ++ [now]))) =
          (hist ++ [(uid, now)]) ++ runRateLimiter cfg rest
            (Function.update st uid (pruneRequests (windowFor cfg uid) now (st uid) ++ [now])) := by
        simp
      rw [hassoc]
      have hmain := ih _ (hist ++ [(uid, now)]) now hchain2 (RLInv_allow hinv hTnow) u t
      rw [windowCount_append_single] at hmain
      by_cases hin : u = uid ∧ t < now ∧ now ≤ t + windowFor cfg u
      · rw [if_pos hin] at hmain
        obtain ⟨hu, ht1, ht2⟩ := hin
        subst hu
        have hcnt := histWindow_le_pruned hinv hTnow ht2
        have hlim : windowCount hist u t (windowFor cfg u) + 1 ≤ limitFor cfg u := by omega
        refine le_trans hmain (le_trans (max_le hlim (le_refl _)) (le_max_right _ _))
      · rw [if_neg hin, add_zero] at hmain
        exact hmain

theorem RLInv_empty (cfg : RLConfig) (T : Int) : RLInv cfg T (fun _ => []) [] := by
  intro u
  constructor
  · simp [eventTimes]
  · simp [eventTimes]

/-- Sliding-window bound from the initial empty map, for a trace with
nondecreasing check times. -/
theorem runRateLimiter_sliding_window (cfg : RLConfig) (tr : List (String × Int))
    (hsort : List.Chain' (· ≤ ·) (tr.map Prod.snd)) (u : String) (t : Int) :
    windowCount (runRateLimiter cfg tr (fun _ => [])) u t (windowFor cfg u) ≤
      limitFor cfg u := by
  cases tr with
  | nil => simp [runRateLimiter, windowCount_nil]
  | cons ev rest =>
    obtain ⟨uid, now⟩ := ev
    have hchain : List.Chain (· ≤ ·) now (((uid, now) :: rest).map Prod.snd) := by
      rw [List.map_cons]
      exact List.chain_cons.mpr ⟨le_refl _, hsort⟩
    have h := runRateLimiter_window_bound cfg ((uid, now) :: rest)
      (fun _ => []) [] now hchain (RLInv_empty cfg now) u t
    simpa [windowCount_nil] using h

/-- C1: the rate limiter prunes the identity's timestamps older than
`now - window`, rejects when the remaining count reaches the limit and
otherwise records `now` and admits; the limit/window pair is the
(stricter, by default) anonymous pair for the shared anonymous constant
and the named pair otherwise; and over any time-sorted sequence of
checks, each identity gets at most `limit` admissions inside any
sliding window `(t, t + window]`. -/
theorem rateLimiter_contract_and_sliding_window
    (cfg : RLConfig) (tr : List (String × Int))
    (userId uid : String) (t now : Int) (st : String → List Int)
    (hsort : List.Chain' (· ≤ ·) (tr.map Prod.snd))
    (hnamed : uid ≠ anonymousId) :
    applyRateLimit cfg st uid now =
        (if limitFor cfg uid ≤ (pruneRequests (windowFor cfg uid) now (st uid)).length then
          (false, Function.update st uid (pruneRequests (windowFor cfg uid) now (st uid)))
        else
          (true, Function.update st uid
            (pruneRequests (windowFor cfg uid) now (st uid) ++ [now]))) ∧
      limitFor cfg anonymousId = cfg.globalRateLimit ∧
      windowFor cfg anonymousId = cfg.globalTimeWindow ∧
      limitFor cfg uid = cfg.authRateLimit ∧
      windowFor cfg uid = cfg.authTimeWindow ∧
      defaultRLConfig.globalRateLimit < defaultRLConfig.authRateLimit ∧
      defaultRLConfig.globalTimeWindow = defaultRLConfig.authTimeWindow ∧
      windowCount (runRateLimiter cfg tr (fun _ => [])) userId t (windowFor cfg userId) ≤
        limitFor cfg userId := by
  refine ⟨rfl, by simp [limitFor, anonymousId], by simp [windowFor, anonymousId],
    by simp [limitFor, hnamed], by simp [windowFor, hnamed], by decide, rfl,
    runRateLimiter_sliding_window cfg tr hsort userId t⟩

/-- Witness for C1 at a concrete configuration, trace and identity. -/
theorem rateLimiter_contract_and_sliding_window_witness :
    (List.Chain' (· ≤ ·)
        (([(ZusApi.anonymousId, (0 : Int)), (ZusApi.anonymousId, 1), ("alice", 2),
          (ZusApi.anonymousId, 3)].map Prod.snd)) ∧
      "alice" ≠ ZusApi.anonymousId) ∧
    (ZusApi.applyRateLimit ZusApi.defaultRLConfig (fun _ => ([] : List Int)) "alice" 7 =
        (if ZusApi.limitFor ZusApi.defaultRLConfig "alice" ≤
            (ZusApi.pruneRequests (ZusApi.windowFor ZusApi.defaultRLConfig "alice") 7
              ((fun _ => ([] : List Int)) "alice")).length then
          (false, Function.update (fun _ => ([] : List Int)) "alice"
            (ZusApi.pruneRequests (ZusApi.windowFor ZusApi.defaultRLConfig "alice") 7
              ((fun _ => ([] : List Int)) "alice")))
        else
          (true, Function.update (fun _ => ([] : List Int)) "alice"
            (ZusApi.pruneRequests (ZusApi.windowFor ZusApi.defaultRLConfig "alice") 7
              ((fun _ => ([] : List Int)) "alice") ++ [7]))) ∧
      ZusApi.limitFor ZusApi.defaultRLConfig ZusApi.anonymousId =
        ZusApi.defaultRLConfig.globalRateLimit ∧
      ZusApi.windowFor ZusApi.defaultRLConfig ZusApi.anonymousId =
        ZusApi.defaultRLConfig.globalTimeWindow ∧
      ZusApi.limitFor ZusApi.defaultRLConfig "alice" = ZusApi.defaultRLConfig.authRateLimit ∧
      ZusApi.windowFor ZusApi.defaultRLConfig "alice" = ZusApi.defaultRLConfig.authTimeWindow ∧
      ZusApi.defaultRLConfig.globalRateLimit < ZusApi.defaultRLConfig.authRateLimit ∧
      ZusApi.defaultRLConfig.globalTimeWindow = ZusApi.defaultRLConfig.authTimeWindow ∧
      ZusApi.windowCount
          (ZusApi.runRateLimiter ZusApi.defaultRLConfig
            [(ZusApi.anonymousId, (0 : Int)), (ZusApi.anonymousId, 1), ("alice", 2),
              (ZusApi.anonymousId, 3)] (fun _ => []))
          ZusApi.anonymousId (-1) (ZusApi.windowFor ZusApi.defaultRLConfig ZusApi.anonymousId) ≤
        ZusApi.limitFor ZusApi.defaultRLConfig ZusApi.anonymousId) :=
  ⟨⟨by simp, by decide⟩,
    rateLimiter_contract_and_sliding_window ZusApi.defaultRLConfig
      [(ZusApi.anonymousId, (0 : Int)), (ZusApi.anonymousId, 1), ("alice", 2),
        (ZusApi.anonymousId, 3)]
      ZusApi.anonymousId "alice" (-1) 7 (fun _ => []) (by simp) (by decide)⟩

/-! ## Query parameter extraction and intent fallback (`app/src/utils.py`)

The three regex-based helpers are embedded as explicit matchers over
character lists.  Greedy left-to-right matching agrees with the
source's regexes because in every pattern a `\d+`/`\s+` group is
followed by a token of a disjoint character class (or the pattern
end), so the regex engine never backtracks into them. -/

/-- Python `\s` / `str.strip` whitespace (ASCII range). -/
def isPySpace (c : Char) : Bool :=
  c == ' ' || c == '\t' || c == '\n' || c == '\r' || c == '\x0b' || c == '\x0c'

/-- Python `str.strip()`. -/
def pyStrip (s : String) : String :=
  String.mk (((s.data.dropWhile isPySpace).reverse.dropWhile isPySpace).reverse)

/-- Python `str.lower()` (the data here is ASCII). -/
def pyLower (s : String) : String :=
  String.mk (s.data.map Char.toLower)

/-- One token of the `extract_top_k_from_query` regexes: a literal
run, `\s+`, the `(\d+)` capture group, or the trailing optional `s?`. -/
inductive PatTok where
  | lit (cs : List Char)
  | ws
  | num
  | optS

/-- Anchored greedy matcher for a token list at the start of `s`;
returns the digits captured by the `(\d+)` group on success. -/
def matchToksAt : List PatTok → List Char → Option (List Char)
  | [], _ => some []
  | .lit l :: ts, s =>
    if l.isPrefixOf s then matchToksAt ts (s.drop l.length) else none
  | .ws :: ts, s =>
    if isPySpace (s.headD 'x') then matchToksAt ts (s.dropWhile isPySpace) else none
  | .num :: ts, s =>
    let ds := s.takeWhile Char.isDigit
    if ds.isEmpty then none
    else (matchToksAt ts (s.dropWhile Char.isDigit)).map fun _ => ds
  | .optS :: ts, s =>
    match s with
    | 's' :: rest => matchToksAt ts rest
    | _ => matchToksAt ts s

/-- `re.search`: try the anchored match at every position, leftmost
first. -/
def searchToks (ts : List PatTok) : List Char → Option (List Char)
  | [] => matchToksAt ts []
  | c :: rest =>
    match matchToksAt ts (c :: rest) with
    | some ds => some ds
    | none => searchToks ts rest

def strTok (s : String) : PatTok := .lit s.data

/-- The eight numeric-hint patterns of `extract_top_k_from_query`, in
source order. -/
def topKPatterns : List (List PatTok) :=
  [[strTok "top", .ws, .num],
   [strTok "first", .ws, .num],
   [strTok "show", .ws, strTok "me", .ws, .num],
   [strTok "give", .ws, strTok "me", .ws, .num],
   [strTok "list", .ws, .num],
   [.num, .ws, strTok "item", .optS],
   [.num, .ws, strTok "product", .optS],
   [.num, .ws, strTok "outlet", .optS]]

/-- Python `int` on a digits-only capture. -/
def digitsToNat (ds : List Char) : Nat :=
  ds.foldl (fun n c => 10 * n + (c.toNat - 48)) 0

/-- First pattern (in order) whose search succeeds. -/
def firstPatternCapture : List (List PatTok) → List Char → Option (List Char)
  | [], _ => none
  | p :: ps, s =>
    match searchToks p s with
    | some ds => some ds
    | none => firstPatternCapture ps s

/-- `extract_top_k_from_query`: scan the lowercased query with the
numeric-hint regexes in order; `int` of the first capture, default 3. -/
def extract_top_k_from_query (query : String) : Nat :=
  match firstPatternCapture topKPatterns (pyLower query).data with
  | some ds => digitsToNat ds
  | none => 3

/-- Remainder of `s` after the first case-insensitive occurrence of
`lit` (given lowercased); `none` if `lit` does not occur. -/
def afterFirstLit (lit : List Char) : List Char → Option (List Char)
  | [] => none
  | c :: rest =>
    if lit.isPrefixOf ((c :: rest).map Char.toLower) then
      some ((c :: rest).drop lit.length)
    else afterFirstLit lit rest

/-- One pattern of `extract_final_answer` (`lit` then `\s*(.+)` with
IGNORECASE and DOTALL, `group(1).strip()`).  Whatever split the engine
picks between `\s*` and `(.+)`, the stripped group equals the stripped
remainder, and the pattern matches iff a nonempty remainder follows
the first occurrence of the literal. -/
def tryAnswerPattern (lit : String) (s : String) : Option String :=
  match afterFirstLit lit.data s.data with
  | none => none
  | some rest =>
    if rest.isEmpty then none else some (pyStrip (String.mk rest))

/-- The four scaffolding markers of `extract_final_answer`, in source
order, lowercased. -/
def answerPatterns : List String :=
  ["final refined answer:", "answer:", "summary:", "based on the information:"]

def extractAnswerWith : List String → String → Option String
  | [], _ => none
  | p :: ps, s =>
    match tryAnswerPattern p s with
    | some r => some r
    | none => extractAnswerWith ps s

/-- `extract_final_answer`: strip any leading answer scaffolding the
model emitted, else return the stripped response. -/
def extract_final_answer (response : String) : String :=
  (extractAnswerWith answerPatterns response).getD (pyStrip response)

/-- `detect_intent`: one classifier-chain call whose outcome is the
parameter; the response is normalized by `strip().lower()`, and any
exception degrades to the label `general`. -/
def detect_intent (chainOutcome : Except String String) : String :=
  match chainOutcome with
  | .ok s => pyLower (pyStrip s)
  | .error _ => "general"

/-- C7: intent detection never propagates an error: a provider label is
returned normalized by trim and lowercase, and any provider failure or
exception yields the label `general`. -/
theorem detect_intent_total_and_normalizes (s e : String) :
    detect_intent (.ok s) = pyLower (pyStrip s) ∧
    detect_intent (.error e) = "general" ∧
    detect_intent (.ok "  Product\n") = "product" ∧
    detect_intent (.error "APIConnectionError") = "general" :=
  ⟨rfl, rfl, by decide, rfl⟩

theorem firstPatternCapture_eq_none {s : List Char} :
    ∀ ps : List (List PatTok), (∀ p ∈ ps, searchToks p s = none) →
      firstPatternCapture ps s = none
  | [], _ => rfl
  | p :: ps, h => by
    unfold firstPatternCapture
    rw [h p (List.mem_cons_self p ps)]
    exact firstPatternCapture_eq_none ps (fun q hq => h q (List.mem_cons_of_mem p hq))

/-- C8: extracting the result-count hint from "show me 5 products"
yields 5, and a query matching none of the numeric-hint patterns
yields the default 3. -/
theorem extract_top_k_hint (q : String)
    (hnone : ∀ p ∈ topKPatterns, searchToks p (pyLower q).data = none) :
    extract_top_k_from_query "show me 5 products" = 5 ∧
    extract_top_k_from_query q = 3 := by
  refine ⟨by decide, ?_⟩
  unfold extract_top_k_from_query
  rw [firstPatternCapture_eq_none topKPatterns hnone]

/-- Witness for C8 at the query "what drinks do you sell". -/
theorem extract_top_k_hint_witness :
    (∀ p ∈ ZusApi.topKPatterns,
      ZusApi.searchToks p (ZusApi.pyLower "what drinks do you sell").data = none) ∧
    (ZusApi.extract_top_k_from_query "show me 5 products" = 5 ∧
      ZusApi.extract_top_k_from_query "what drinks do you sell" = 3) :=
  ⟨by decide, extract_top_k_hint "what drinks do you sell" (by decide)⟩

/-! ## Product retrieval (`app/src/vectorstore.py`, `get_products` in
`app/src/router.py`)

External calls are oracle parameters; `search_products` and
`get_products` additionally report how many embedding / index /
summarization calls they issued, so that the no-retry part of the
design is a provable statement.  Floats (price, similarity score) are
carried as rationals; the pipeline only copies them. -/

structure HErr where
  status : Nat
  detail : String
deriving DecidableEq

structure ProductMeta where
  name : String
  category_title : String
  image : String
  price : Rat
  color : String
  description : String
deriving DecidableEq

structure PineMatch where
  metadata : Option ProductMeta
  score : Rat
deriving DecidableEq

/-- Product dict built by `search_products` from one Pinecone match
(`if match.metadata:` guards the metadata access). -/
structure SearchedProduct where
  name : String
  category_title : String
  image : String
  price : Rat
  color : String
  description : String
  score : Rat
deriving DecidableEq

def matchToProduct (m : PineMatch) : Option SearchedProduct :=
  m.metadata.map fun meta =>
    { name := meta.name, category_title := meta.category_title, image := meta.image,
      price := meta.price, color := meta.color, description := meta.description,
      score := m.score }

/-- `search_products`: missing index → `[]`; embedding exception →
`[]`; index-query exception → `[]`; otherwise the mapped matches.
Also returns (embedding calls, index-query calls). -/
def search_products (hasIndex : Bool)
    (embedOutcome : Except String Unit)
    (queryOutcome : Except String (List PineMatch)) :
    List SearchedProduct × Nat × Nat :=
  if hasIndex = false then ([], 0, 0)
  else
    match embedOutcome with
    | .error _ => ([], 1, 0)
    | .ok _ =>
      match queryOutcome with
      | .error _ => ([], 1, 1)
      | .ok ms => (ms.filterMap matchToProduct, 1, 1)

/-- Entry of `retrieved_products_info` in `get_products`. -/
structure RetrievedProduct where
  name : String
  category : String
  price : Rat
  color : String
  image : String
  snippet : String
  score : Rat
deriving DecidableEq

def toRetrieved (p : SearchedProduct) : RetrievedProduct :=
  { name := p.name, category := p.category_title, price := p.price, color := p.color,
    image := p.image, snippet := p.description, score := p.score }

structure ProductResponse where
  summary : String
  retrieved_products : List RetrievedProduct
deriving DecidableEq

def noProductsMsg : String := "No relevant products found."

/-- `get_products`: empty query → 400; models missing → 503; zero
matches short-circuit to the fixed no-results response; otherwise one
summarization call, whose exception becomes a 500 retrieval error.
The `Nat` component counts summarization calls. -/
def get_products (query : String) (modelsLoaded : Bool)
    (searchResult : List SearchedProduct × Nat × Nat)
    (summarizeOutcome : Except String String) :
    Except HErr ProductResponse × Nat :=
  if query = "" then (.error ⟨400, "Query parameter cannot be empty."⟩, 0)
  else if modelsLoaded = false then
    (.error ⟨503, "Models not loaded. Please try again later."⟩, 0)
  else
    let products := searchResult.1
    if products.isEmpty then (.ok ⟨noProductsMsg, []⟩, 0)
    else
      match summarizeOutcome with
      | .error e =>
        (.error ⟨500, "An error occurred during product retrieval: " ++ e⟩, 1)
      | .ok s => (.ok ⟨extract_final_answer s, products.map toRetrieved⟩, 1)

/-- C6: zero vector-index matches make the Product Pipeline return the
fixed no-results message with an empty match list, and the
summarization step is never called (0 summarizer invocations). -/
theorem product_pipeline_zero_matches (query : String) (hq : query ≠ "")
    (embedOutcome : Except String Unit) (summ : Except String String)
    (sr : List SearchedProduct × Nat × Nat) (hsr : sr.1 = []) :
    (search_products true embedOutcome (.ok [])).1 = [] ∧
    get_products query true (search_products true embedOutcome (.ok [])) summ =
      (.ok ⟨noProductsMsg, []⟩, 0) ∧
    get_products query true sr summ = (.ok ⟨noProductsMsg, []⟩, 0) := by
  have hempty : (search_products true embedOutcome (.ok [])).1 = [] := by
    cases embedOutcome <;> simp [search_products]
  refine ⟨hempty, ?_, ?_⟩
  · simp [get_products, hq, hempty]
  · simp [get_products, hq, hsr]

/-- Witness for C6 at the query "any tumblers" with an empty index
answer. -/
theorem product_pipeline_zero_matches_witness :
    (("any tumblers" : String) ≠ "" ∧
      (([] : List ZusApi.SearchedProduct), 1, 1).1 = ([] : List ZusApi.SearchedProduct)) ∧
    ((ZusApi.search_products true (.ok ()) (.ok [])).1 = [] ∧
      ZusApi.get_products "any tumblers" true (ZusApi.search_products true (.ok ()) (.ok []))
          (.ok "summary") =
        (.ok ⟨ZusApi.noProductsMsg, []⟩, 0) ∧
      ZusApi.get_products "any tumblers" true (([] : List ZusApi.SearchedProduct), 1, 1)
          (.ok "summary") =
        (.ok ⟨ZusApi.noProductsMsg, []⟩, 0)) :=
  ⟨⟨by decide, rfl⟩,
    product_pipeline_zero_matches "any tumblers" (by decide) (.ok ()) (.ok "summary")
      (([] : List ZusApi.SearchedProduct), 1, 1) rfl⟩

/-- C3 as stated is false on the code: an exception in the embedding
call does not surface as a retrieval error — `search_products` catches
it and returns an empty match list, so `get_products` answers with the
normal (HTTP 200) fixed no-results response. -/
theorem product_embedding_failure_is_not_an_error :
    ZusApi.search_products true (.error "OpenAI APIError")
        (.ok [ZusApi.PineMatch.mk
          (some (ZusApi.ProductMeta.mk "ZUS Tumbler" "Drinkware" "img.png" 39 "blue"
            "A 500ml tumbler")) ((4 : Rat) / 5)]) = ([], 1, 0) ∧
    ZusApi.get_products "tumbler" true
        (ZusApi.search_products true (.error "OpenAI APIError")
          (.ok [ZusApi.PineMatch.mk
            (some (ZusApi.ProductMeta.mk "ZUS Tumbler" "Drinkware" "img.png" 39 "blue"
              "A 500ml tumbler")) ((4 : Rat) / 5)]))
        (.ok "A nice tumbler.") =
      (.ok ⟨ZusApi.noProductsMsg, []⟩, 0) := by
  constructor
  · rfl
  · rfl

/-- C3 amended: an exception during summarization is caught and
surfaced as a generic 500 retrieval error; exceptions during embedding
or index query are caught inside the search step and yield the normal
no-results response instead; and no provider call is retried — the
embedding, index and summarization calls are each issued at most once
per request. -/
theorem product_pipeline_failure_handling (query query2 e : String) (hq : query ≠ "")
    (hasIndex modelsLoaded : Bool) (embedOutcome : Except String Unit)
    (queryOutcome : Except String (List PineMatch))
    (p : SearchedProduct) (ps : List SearchedProduct) (ec qc : Nat)
    (sr : List SearchedProduct × Nat × Nat) (summ : Except String String) :
    get_products query true (p :: ps, ec, qc) (.error e) =
      (.error ⟨500, "An error occurred during product retrieval: " ++ e⟩, 1) ∧
    search_products true (.error e) queryOutcome = ([], 1, 0) ∧
    get_products query true (search_products true (.error e) queryOutcome) summ =
      (.ok ⟨noProductsMsg, []⟩, 0) ∧
    search_products true (.ok ()) (.error e) = ([], 1, 1) ∧
    get_products query true (search_products true (.ok ()) (.error e)) summ =
      (.ok ⟨noProductsMsg, []⟩, 0) ∧
    (search_products hasIndex embedOutcome queryOutcome).2.1 ≤ 1 ∧
    (search_products hasIndex embedOutcome queryOutcome).2.2 ≤ 1 ∧
    (get_products query2 modelsLoaded sr summ).2 ≤ 1 := by
  refine ⟨by simp [get_products, hq], rfl, by simp [get_products, hq, search_products], rfl,
    by simp [get_products, hq, search_products], ?_, ?_, ?_⟩
  · cases hasIndex <;> cases embedOutcome <;> cases queryOutcome <;>
      simp [search_products]
  · cases hasIndex <;> cases embedOutcome <;> cases queryOutcome <;>
      simp [search_products]
  · by_cases h2 : query2 = ""
    · simp [get_products, h2]
    · cases modelsLoaded
      · simp [get_products, h2]
      · by_cases h3 : sr.1.isEmpty
        · simp [get_products, h2, h3]
        · cases summ <;> simp [get_products, h2, h3]

/-- Witness for C3-amended at concrete oracles. -/
theorem product_pipeline_failure_handling_witness :
    (("latte cup" : String) ≠ "") ∧
    (ZusApi.get_products "latte cup" true
          ([{ name := "Cup", category_title := "Drinkware", image := "i", price := 5,
              color := "red", description := "d", score := 1 }], 1, 1)
          (.error "LLM timeout") =
        (.error ⟨500, "An error occurred during product retrieval: " ++ "LLM timeout"⟩, 1) ∧
      ZusApi.search_products true (.error "LLM timeout") (.ok []) = ([], 1, 0) ∧
      ZusApi.get_products "latte cup" true
          (ZusApi.search_products true (.error "LLM timeout") (.ok [])) (.ok "s") =
        (.ok ⟨ZusApi.noProductsMsg, []⟩, 0) ∧
      ZusApi.search_products true (.ok ()) (.error "LLM timeout") = ([], 1, 1) ∧
      ZusApi.get_products "latte cup" true
          (ZusApi.search_products true (.ok ()) (.error "LLM timeout")) (.ok "s") =
        (.ok ⟨ZusApi.noProductsMsg, []⟩, 0) ∧
      (ZusApi.search_products true (.ok ()) (.ok [])).2.1 ≤ 1 ∧
      (ZusApi.search_products true (.ok ()) (.ok [])).2.2 ≤ 1 ∧
      (ZusApi.get_products "latte" true ([], 0, 0) (.ok "s")).2 ≤ 1) :=
  ⟨by decide,
    product_pipeline_failure_handling "latte cup" "latte" "LLM timeout" (by decide)
      true true (.ok ()) (.ok [])
      { name := "Cup", category_title := "Drinkware", image := "i", price := 5,
        color := "red", description := "d", score := 1 }
      [] 1 1 ([], 0, 0) (.ok "s")⟩

/-! ## Outlet retrieval (`app/src/text2SQL.py`, `get_outlets` in
`app/src/router.py`) -/

/-- A result row as built by `execute_sql_query`
(`dict(zip(columns, row))`, values carried as text). -/
abbrev OutletRow := List (String × String)

/-- `execute_sql_query`: an empty generated query yields zero rows, and
any exception from the engine (malformed SQL, unknown column, ...) is
caught and also yields zero rows. -/
def execute_sql_query (sqlQuery : String)
    (dbExec : String → Except String (List OutletRow)) : List OutletRow :=
  if sqlQuery = "" then []
  else
    match dbExec sqlQuery with
    | .ok rows => rows
    | .error _ => []

structure OutletResponse where
  summary : String
  sql_query : String
  executed_sql_result : List OutletRow
deriving DecidableEq

def noOutletsMsg : String :=
  "I couldn\x27t find any relevant outlets based on your query. Please try a different query."

/-- `get_outlets`: empty query → 400; chains missing → 503; SQL
generation exception → 500; zero rows short-circuit to the fixed
no-results response; otherwise one summarization call whose exception
becomes a 500.  The `Nat` component counts summarization calls. -/
def get_outlets (query : String) (chainsLoaded : Bool)
    (sqlGenOutcome : Except String String)
    (dbExec : String → Except String (List OutletRow))
    (summarizeOutcome : Except String String) :
    Except HErr OutletResponse × Nat :=
  if query = "" then (.error ⟨400, "Query parameter cannot be empty."⟩, 0)
  else if chainsLoaded = false then
    (.error ⟨503, "Models not loaded. Please try again later."⟩, 0)
  else
    match sqlGenOutcome with
    | .error e => (.error ⟨500, "An error occurred while querying outlet data: " ++ e⟩, 0)
    | .ok sqlQuery =>
      let result := execute_sql_query sqlQuery dbExec
      if result.length = 0 then (.ok ⟨noOutletsMsg, sqlQuery, []⟩, 0)
      else
        match summarizeOutcome with
        | .error e =>
          (.error ⟨500, "An error occurred while querying outlet data: " ++ e⟩, 1)
        | .ok answer => (.ok ⟨answer, sqlQuery, result⟩, 1)

/-- C5: a raising SQL execution is treated as zero rows instead of a
database error, and zero rows short-circuit to the fixed no-results
message with an empty result list, never calling summarization. -/
theorem outlet_pipeline_sql_failure_and_zero_rows
    (query sqlQuery e : String) (hq : query ≠ "")
    (dbExec : String → Except String (List OutletRow))
    (summ : Except String String)
    (hdb : dbExec sqlQuery = .error e) :
    execute_sql_query sqlQuery dbExec = [] ∧
    get_outlets query true (.ok sqlQuery) dbExec summ =
      (.ok ⟨noOutletsMsg, sqlQuery, []⟩, 0) ∧
    (∀ dbE : String → Except String (List OutletRow),
      execute_sql_query sqlQuery dbE = [] →
        get_outlets query true (.ok sqlQuery) dbE summ =
          (.ok ⟨noOutletsMsg, sqlQuery, []⟩, 0)) := by
  have hempty : execute_sql_query sqlQuery dbExec = [] := by
    by_cases hs : sqlQuery = ""
    · simp [execute_sql_query, hs]
    · simp [execute_sql_query, hs, hdb]
  refine ⟨hempty, by simp [get_outlets, hq, hempty], ?_⟩
  intro dbE hE
  simp [get_outlets, hq, hE]

/-- Witness for C5 at a malformed generated statement. -/
theorem outlet_pipeline_sql_failure_and_zero_rows_witness :
    (("outlets in Selangor" : String) ≠ "" ∧
      (fun _ : String => (.error "OperationalError: no such column" :
        Except String (List ZusApi.OutletRow))) "SELECT bogus FROM outlets" =
        .error "OperationalError: no such column") ∧
    (ZusApi.execute_sql_query "SELECT bogus FROM outlets"
        (fun _ => .error "OperationalError: no such column") = [] ∧
      ZusApi.get_outlets "outlets in Selangor" true (.ok "SELECT bogus FROM outlets")
          (fun _ => .error "OperationalError: no such column") (.ok "s") =
        (.ok ⟨ZusApi.noOutletsMsg, "SELECT bogus FROM outlets", []⟩, 0) ∧
      (∀ dbE : String → Except String (List ZusApi.OutletRow),
        ZusApi.execute_sql_query "SELECT bogus FROM outlets" dbE = [] →
          ZusApi.get_outlets "outlets in Selangor" true (.ok "SELECT bogus FROM outlets")
              dbE (.ok "s") =
            (.ok ⟨ZusApi.noOutletsMsg, "SELECT bogus FROM outlets", []⟩, 0))) :=
  ⟨⟨by decide, rfl⟩,
    outlet_pipeline_sql_failure_and_zero_rows "outlets in Selangor"
      "SELECT bogus FROM outlets" "OperationalError: no such column" (by decide)
      (fun _ => .error "OperationalError: no such column") (.ok "s") rfl⟩

/-! ## Chat orchestration (`chat_endpoint` in `app/src/router.py`) -/

inductive PipeResponse where
  | product (r : ProductResponse)
  | outletCoroutine (prompt : String)
deriving DecidableEq

/-- `chat_cache` lookup (`if prompt in chat_cache`). -/
def lookupCache (cache : List (String × PipeResponse)) (prompt : String) :
    Option PipeResponse :=
  (cache.find? (fun e => e.1 == prompt)).map Prod.snd

instance exceptDecEq {ε α : Type} [DecidableEq ε] [DecidableEq α] :
    DecidableEq (Except ε α) := fun a b =>
  match a, b with
  | .ok x, .ok y =>
    if h : x = y then .isTrue (by rw [h]) else .isFalse (by intro hc; cases hc; exact h rfl)
  | .error x, .error y =>
    if h : x = y then .isTrue (by rw [h]) else .isFalse (by intro hc; cases hc; exact h rfl)
  | .ok _, .error _ => .isFalse (by intro hc; cases hc)
  | .error _, .ok _ => .isFalse (by intro hc; cases hc)

/-- Outcome of one `chat_endpoint` request: `result` is what the
endpoint body produced — `.error` for a raised `HTTPException`, `.ok v`
for a returned value `v` (which the framework still has to serialize) —
together with the cache afterwards and how many classifier,
product-pipeline and (awaited) outlet-pipeline calls were made. -/
structure ChatOutcome where
  result : Except HErr PipeResponse
  cacheAfter : List (String × PipeResponse)
  classifierCalls : Nat
  productCalls : Nat
  outletCalls : Nat
deriving DecidableEq

/-- `chat_endpoint` body after dependency resolution: `admitted` is the
`apply_rate_limit` dependency outcome (`false` models its 429 raise);
the cache is checked before the empty-prompt guard and before
classification.  The product branch awaits `get_products` and stores a
successful response under the prompt; any in-`try` raise — the
`HTTPException(400)` for an unclassifiable intent as well as a pipeline
`HTTPException` — is caught by the endpoint's own blanket
`except Exception` and re-raised as a 500 with detail
"Could not classify intent.".  The outlet branch at router.py:215 calls
`get_outlets(prompt)` WITHOUT `await`: the pipeline body never runs
(the outlet-call counter stays 0), and the resulting coroutine object
is cached unconditionally and returned.  `detect_intent` returns a
plain string, so the `isinstance(intent, dict)` branch of the source is
dead code. -/
def chat_endpoint (admitted : Bool) (cache : List (String × PipeResponse))
    (prompt : String) (intentOutcome : Except String String)
    (productOutcome : Except HErr ProductResponse) : ChatOutcome :=
  if admitted = false then
    ⟨.error ⟨429, "Too many requests. Please try again later."⟩, cache, 0, 0, 0⟩
  else
    match lookupCache cache prompt with
    | some v => ⟨.ok v, cache, 0, 0, 0⟩
    | none =>
      if prompt = "" then ⟨.error ⟨400, "Prompt cannot be empty."⟩, cache, 0, 0, 0⟩
      else
        let intent := detect_intent intentOutcome
        if intent = "product" then
          match productOutcome with
          | .ok r => ⟨.ok (.product r), (prompt, .product r) :: cache, 1, 1, 0⟩
          | .error _ => ⟨.error ⟨500, "Could not classify intent."⟩, cache, 1, 1, 0⟩
        else if intent = "outlet" then
          ⟨.ok (.outletCoroutine prompt),
            (prompt, .outletCoroutine prompt) :: cache, 1, 0, 0⟩
        else ⟨.error ⟨500, "Could not classify intent."⟩, cache, 1, 0, 0⟩

/-- What the client sees: a raised `HTTPException` keeps its status; a
returned `ProductResponse` serializes; a returned never-awaited
coroutine object cannot be serialized by the framework, so the client
receives a generic 500. -/
def httpOutcome (o : ChatOutcome) : Except HErr PipeResponse :=
  match o.result with
  | .ok (.outletCoroutine _) => .error ⟨500, "Internal Server Error"⟩
  | r => r

/-- `chat_endpoint` with its `apply_rate_limit` dependency resolved
against the shared rate-limit map. -/
def chat_request (cfg : RLConfig) (rl : String → List Int) (userId : String) (now : Int)
    (cache : List (String × PipeResponse)) (prompt : String)
    (intentOutcome : Except String String)
    (productOutcome : Except HErr ProductResponse) :
    ChatOutcome × (String → List Int) :=
  (chat_endpoint (applyRateLimit cfg rl userId now).1 cache prompt intentOutcome
      productOutcome,
    (applyRateLimit cfg rl userId now).2)

/-- C2 evaluated on the code: the empty-prompt 400 and the rate-limit
429 hold, but a prompt whose resolved intent is the fallback label
`general` is answered with HTTP 500, not the 400 the claim states: the
`HTTPException(status_code=400, detail="Could not classify intent.")`
raised inside the `try` block is caught by the endpoint's own blanket
`except Exception` and re-raised with status 500. -/
theorem chat_endpoint_error_statuses :
    (ZusApi.chat_endpoint true [] "" (.ok "general")
        (.error ⟨500, "e"⟩)).result =
      .error ⟨400, "Prompt cannot be empty."⟩ ∧
    (ZusApi.chat_request ZusApi.defaultRLConfig (fun _ => [0, 0, 0])
        ZusApi.anonymousId 1 [] "hello" (.ok "general")
        (.error ⟨500, "e"⟩)).1.result =
      .error ⟨429, "Too many requests. Please try again later."⟩ ∧
    (ZusApi.chat_endpoint true [] "hello" (.ok "general")
        (.error ⟨500, "e"⟩)).result =
      .error ⟨500, "Could not classify intent."⟩ ∧
    (ZusApi.chat_endpoint true [] "hello" (.ok "general")
        (.error ⟨500, "e"⟩)).result ≠
      .error ⟨400, "Could not classify intent."⟩ := by
  exact ⟨rfl, rfl, rfl, by decide⟩

/-- C4 evaluated at the failing input: for a fresh outlet-intent prompt
the endpoint calls `get_outlets(prompt)` without `await`
(router.py:215), so the outlet pipeline is never invoked (outlet-call
counter 0), the never-awaited coroutine object is cached
unconditionally, the request fails at response serialization with a
500 — yet the value stays cached — and the second identical prompt is
served the same cached coroutine (zero classifier calls), failing with
500 again.  This contradicts the claim that a response is stored only
after a successful pipeline response and never after an error. -/
theorem chat_outlet_intent_caches_unawaited_coroutine :
    ZusApi.chat_endpoint true [] "outlets in Selangor" (.ok "outlet")
        (.ok ⟨"p", []⟩) =
      ⟨.ok (.outletCoroutine "outlets in Selangor"),
        [("outlets in Selangor", .outletCoroutine "outlets in Selangor")], 1, 0, 0⟩ ∧
    ZusApi.httpOutcome
        (ZusApi.chat_endpoint true [] "outlets in Selangor" (.ok "outlet")
          (.ok ⟨"p", []⟩)) =
      .error ⟨500, "Internal Server Error"⟩ ∧
    ZusApi.chat_endpoint true
        [("outlets in Selangor", .outletCoroutine "outlets in Selangor")]
        "outlets in Selangor" (.ok "outlet") (.ok ⟨"p", []⟩) =
      ⟨.ok (.outletCoroutine "outlets in Selangor"),
        [("outlets in Selangor", .outletCoroutine "outlets in Selangor")], 0, 0, 0⟩ ∧
    ZusApi.httpOutcome
        (ZusApi.chat_endpoint true
          [("outlets in Selangor", .outletCoroutine "outlets in Selangor")]
          "outlets in Selangor" (.ok "outlet") (.ok ⟨"p", []⟩)) =
      .error ⟨500, "Internal Server Error"⟩ := by
  exact ⟨rfl, rfl, rfl, rfl⟩

/-- C10: the chat cache is keyed by the prompt alone — two admitted
requests from different identities, rate-limit states, tokens and
oracles receive the identical cached payload for a cached prompt, with
no classifier or pipeline invocation. -/
theorem chat_cache_identity_independent
    (cfg : RLConfig) (rl1 rl2 : String → List Int) (u1 u2 : String) (n1 n2 : Int)
    (cache : List (String × PipeResponse)) (prompt : String) (v : PipeResponse)
    (i1 i2 : Except String String) (p1 p2 : Except HErr ProductResponse)
    (hhit : lookupCache cache prompt = some v)
    (h1 : (applyRateLimit cfg rl1 u1 n1).1 = true)
    (h2 : (applyRateLimit cfg rl2 u2 n2).1 = true) :
    (chat_request cfg rl1 u1 n1 cache prompt i1 p1).1 = ⟨.ok v, cache, 0, 0, 0⟩ ∧
    (chat_request cfg rl2 u2 n2 cache prompt i2 p2).1 = ⟨.ok v, cache, 0, 0, 0⟩ ∧
    (chat_request cfg rl1 u1 n1 cache prompt i1 p1).1 =
      (chat_request cfg rl2 u2 n2 cache prompt i2 p2).1 := by
  have e1 : (chat_request cfg rl1 u1 n1 cache prompt i1 p1).1 =
      ⟨.ok v, cache, 0, 0, 0⟩ := by
    simp [chat_request, h1, chat_endpoint, hhit]
  have e2 : (chat_request cfg rl2 u2 n2 cache prompt i2 p2).1 =
      ⟨.ok v, cache, 0, 0, 0⟩ := by
    simp [chat_request, h2, chat_endpoint, hhit]
  exact ⟨e1, e2, by rw [e1, e2]⟩

/-- Witness for C10: an anonymous and a named caller repeat a cached
prompt. -/
theorem chat_cache_identity_independent_witness :
    (ZusApi.lookupCache [("hi", .product ⟨"s", []⟩)] "hi" =
        some (.product ⟨"s", []⟩) ∧
      (ZusApi.applyRateLimit ZusApi.defaultRLConfig (fun _ => []) ZusApi.anonymousId 0).1 =
        true ∧
      (ZusApi.applyRateLimit ZusApi.defaultRLConfig (fun _ => [3]) "alice" 5).1 = true) ∧
    ((ZusApi.chat_request ZusApi.defaultRLConfig (fun _ => []) ZusApi.anonymousId 0
          [("hi", .product ⟨"s", []⟩)] "hi" (.ok "product") (.ok ⟨"p", []⟩)).1 =
        ⟨.ok (.product ⟨"s", []⟩), [("hi", .product ⟨"s", []⟩)], 0, 0, 0⟩ ∧
      (ZusApi.chat_request ZusApi.defaultRLConfig (fun _ => [3]) "alice" 5
          [("hi", .product ⟨"s", []⟩)] "hi" (.error "boom") (.error ⟨500, "e"⟩)).1 =
        ⟨.ok (.product ⟨"s", []⟩), [("hi", .product ⟨"s", []⟩)], 0, 0, 0⟩ ∧
      (ZusApi.chat_request ZusApi.defaultRLConfig (fun _ => []) ZusApi.anonymousId 0
          [("hi", .product ⟨"s", []⟩)] "hi" (.ok "product") (.ok ⟨"p", []⟩)).1 =
        (ZusApi.chat_request ZusApi.defaultRLConfig (fun _ => [3]) "alice" 5
          [("hi", .product ⟨"s", []⟩)] "hi" (.error "boom") (.error ⟨500, "e"⟩)).1) :=
  ⟨⟨rfl, by decide, by decide⟩,
    chat_cache_identity_independent ZusApi.defaultRLConfig (fun _ => []) (fun _ => [3])
      ZusApi.anonymousId "alice" 0 5 [("hi", .product ⟨"s", []⟩)] "hi"
      (.product ⟨"s", []⟩) (.ok "product") (.error "boom") (.ok ⟨"p", []⟩)
      (.error ⟨500, "e"⟩) rfl (by decide) (by decide)⟩

/-! ## Registration, login, identity resolution
(`register`/`login` in `app/src/router.py`, `get_user_identifier` and
`create_access_token` in `app/src/rate_limit.py`).  The bcrypt context
is a (hash, verify) oracle pair; a JWT is payload plus signing key,
and decoding checks key and expiry. -/

structure UserRec where
  username : String
  hashed_password : String
deriving DecidableEq

/-- `users.json` as an association list keyed by username. -/
def lookupUser (users : List (String × UserRec)) (u : String) : Option UserRec :=
  (users.find? (fun e => e.1 == u)).map Prod.snd

/-- `register`: conflict if the username is present (raised before any
save, leaving the mapping unchanged); otherwise store the salted hash
keyed by username. -/
def register (hash : String → String) (users : List (String × UserRec))
    (username password : String) : Except HErr (List (String × UserRec)) :=
  if (lookupUser users username).isSome then .error ⟨400, "Username already exists"⟩
  else .ok ((username, ⟨username, hash password⟩) :: users)

structure TokenPayload where
  sub : Option String
  exp : Int
deriving DecidableEq

/-- A JWT as data: its payload and the key it was signed with. -/
structure SignedToken where
  payload : TokenPayload
  signedWith : String
deriving DecidableEq

/-- `create_access_token`: payload `{"sub": username, "exp": now +
expiry}` signed with the configured secret. -/
def create_access_token (secret subName : String) (now expireSeconds : Int) :
    SignedToken :=
  ⟨⟨some subName, now + expireSeconds⟩, secret⟩

/-- `jwt.decode`: signature and expiry validation, `JWTError`
otherwise. -/
def jwt_decode (secret : String) (now : Int) (tok : SignedToken) :
    Except String TokenPayload :=
  if tok.signedWith = secret ∧ now < tok.payload.exp then .ok tok.payload
  else .error "JWTError"

/-- `login`: absent username or failed verification → 401; otherwise a
signed token carrying the username as subject. -/
def login (verify : String → String → Bool) (secret : String)
    (users : List (String × UserRec)) (username password : String)
    (now expireSeconds : Int) : Except HErr SignedToken :=
  match lookupUser users username with
  | none => .error ⟨401, "Invalid credentials"⟩
  | some user =>
    if verify password user.hashed_password then
      .ok (create_access_token secret username now expireSeconds)
    else .error ⟨401, "Invalid credentials"⟩

/-- `get_user_identifier`: no token, failed decode, or missing subject
resolve to the shared anonymous identity; otherwise the subject. -/
def get_user_identifier (secret : String) (now : Int) :
    Option SignedToken → String
  | none => anonymousId
  | some tok =>
    match jwt_decode secret now tok with
    | .error _ => anonymousId
    | .ok payload =>
      match payload.sub with
      | none => anonymousId
      | some u => u

/-- C9: duplicate registration conflicts without changing the stored
mapping; login with an absent username or a wrong password fails with
an authentication error; login with the correct password returns a
signed credential whose subject, as resolved by the Identity Resolver,
equals the username. -/
theorem register_login_roundtrip
    (hash : String → String) (verify : String → String → Bool)
    (secret username ghost password badPassword : String)
    (users : List (String × UserRec)) (stored : UserRec)
    (now expireSeconds now2 : Int)
    (hdup : lookupUser users username = some stored)
    (hghost : lookupUser users ghost = none)
    (hgood : verify password stored.hashed_password = true)
    (hbad : verify badPassword stored.hashed_password = false)
    (hfresh : now2 < now + expireSeconds) :
    register hash users username password = .error ⟨400, "Username already exists"⟩ ∧
    login verify secret users ghost password now expireSeconds =
      .error ⟨401, "Invalid credentials"⟩ ∧
    login verify secret users username badPassword now expireSeconds =
      .error ⟨401, "Invalid credentials"⟩ ∧
    login verify secret users username password now expireSeconds =
      .ok (create_access_token secret username now expireSeconds) ∧
    get_user_identifier secret now2
        (some (create_access_token secret username now expireSeconds)) = username := by
  refine ⟨by simp [register, hdup], by simp [login, hghost],
    by simp [login, hdup, hbad], by simp [login, hdup, hgood], ?_⟩
  simp [get_user_identifier, jwt_decode, create_access_token, hfresh]

/-- Witness for C9 with a concrete hash/verify pair and user store. -/
theorem register_login_roundtrip_witness :
    (ZusApi.lookupUser [("alice", ⟨"alice", "Hpw"⟩)] "alice" = some ⟨"alice", "Hpw"⟩ ∧
      ZusApi.lookupUser [("alice", ⟨"alice", "Hpw"⟩)] "bob" = none ∧
      (fun p h => h == "H" ++ p) "pw"
        (ZusApi.UserRec.hashed_password ⟨"alice", "Hpw"⟩) = true ∧
      (fun p h => h == "H" ++ p) "wrong"
        (ZusApi.UserRec.hashed_password ⟨"alice", "Hpw"⟩) = false ∧
      (10 : Int) < 0 + 3600) ∧
    (ZusApi.register (fun p => "H" ++ p) [("alice", ⟨"alice", "Hpw"⟩)] "alice" "pw" =
        .error ⟨400, "Username already exists"⟩ ∧
      ZusApi.login (fun p h => h == "H" ++ p) "secret" [("alice", ⟨"alice", "Hpw"⟩)]
          "bob" "pw" 0 3600 =
        .error ⟨401, "Invalid credentials"⟩ ∧
      ZusApi.login (fun p h => h == "H" ++ p) "secret" [("alice", ⟨"alice", "Hpw"⟩)]
          "alice" "wrong" 0 3600 =
        .error ⟨401, "Invalid credentials"⟩ ∧
      ZusApi.login (fun p h => h == "H" ++ p) "secret" [("alice", ⟨"alice", "Hpw"⟩)]
          "alice" "pw" 0 3600 =
        .ok (ZusApi.create_access_token "secret" "alice" 0 3600) ∧
      ZusApi.get_user_identifier "secret" 10
          (some (ZusApi.create_access_token "secret" "alice" 0 3600)) = "alice") :=
  ⟨⟨rfl, rfl, by decide, by decide, by decide⟩,
    register_login_roundtrip (fun p => "H" ++ p) (fun p h => h == "H" ++ p)
      "secret" "alice" "bob" "pw" "wrong" [("alice", ⟨"alice", "Hpw"⟩)] ⟨"alice", "Hpw"⟩
      0 3600 10 rfl rfl (by decide) (by decide) (by decide)⟩

end ZusApi
